import Mathlib

/-!
Shallow embedding of the storage telemetry subsystem of the repository:
`src/app/api/rclone/storage/route.ts`, `src/app/api/rclone/storage/stream/route.ts`
and `src/app/api/rclone/check/route.ts`.

The effectful TypeScript code is modelled by pure functions: the daemon's
HTTP responses become an explicit `DaemonResp` value, `Date.now()` becomes an
explicit timestamp argument, and the module-global state
(`storageCache`, `backgroundJobRunning`, `backgroundJobTimer`) becomes an
explicit `JobState` record threaded through the functions.
-/

namespace RRList

/-- The `StorageData` interface of `storage/route.ts` (lines 6-12):
optional `total`/`used`/`free` byte counts, a `lastUpdated` timestamp and an
optional `error` string. JS `undefined` fields are `none`. -/
structure StorageData where
  total : Option Nat := none
  used : Option Nat := none
  free : Option Nat := none
  lastUpdated : Nat
  error : Option String := none
deriving DecidableEq, Repr

/-- The `StorageCache` mapping (remote name → `StorageData`). A JS object is
modelled as an association list in insertion order, with unique keys
maintained by `cacheSet`. -/
abbrev StorageCache := List (String × StorageData)

/-- Property lookup `cache[remote]`. -/
def cacheGet (c : StorageCache) (r : String) : Option StorageData :=
  match c with
  | [] => none
  | (k, v) :: rest => if k = r then some v else cacheGet rest r

/-- Property assignment `cache[remote] = d`: replace in place if the key is
present (JS objects keep the original insertion position), else append. -/
def cacheSet (c : StorageCache) (r : String) (d : StorageData) : StorageCache :=
  match c with
  | [] => [(r, d)]
  | (k, v) :: rest => if k = r then (r, d) :: rest else (k, v) :: cacheSet rest r d

/-- `Object.keys(cache)` in insertion order. -/
def cacheKeys (c : StorageCache) : List String := c.map (·.1)

/-- Outcome of one `fetch` against the rclone daemon, as observed by the
route code: a 2xx response with a JSON body (whose numeric fields may be
absent), a non-2xx response (`response.ok` false) with HTTP status, optional
`error` field of the JSON error body, and `statusText`, or a thrown
network/timeout error with its message. -/
inductive DaemonResp where
  | success (total used free : Option Nat)
  | httpError (status : Nat) (errorBody : Option String) (statusText : String)
  | failure (msg : String)
deriving DecidableEq, Repr

/-- JS truthy-or: `a || b` where `a` is a possibly-absent string
(`undefined` and `""` are falsy). -/
def jsOr (a : Option String) (b : String) : String :=
  match a with
  | some s => if s = "" then b else s
  | none => b

/-- `checkRemoteStorage` (`storage/route.ts` lines 35-73), with the daemon
response and the completion time (`Date.now()`) made explicit. On a 2xx
response it copies `total`/`used`/`free` from the body and leaves `error`
absent; on a non-2xx response it throws
`API error: <status> - <errorData.error || statusText>`, which its own
`catch` turns into a record with only `lastUpdated` and `error`; a thrown
network error likewise becomes an error record. It always returns a record,
never propagating an exception to its caller. -/
def checkRemoteStorage (resp : DaemonResp) (now : Nat) : StorageData :=
  match resp with
  | .success t u f =>
      { total := t, used := u, free := f, lastUpdated := now }
  | .httpError status errorBody statusText =>
      { lastUpdated := now,
        error := some ("API error: " ++ toString status ++ " - " ++ jsOr errorBody statusText) }
  | .failure msg =>
      { lastUpdated := now, error := some msg }

/-- The merge step inlined in `runStorageCheckJob` (`storage/route.ts`
lines 138-148): compare the stored record's `total`, `used` and `error`
against the new result (`free` and `lastUpdated` are not compared); if there
is no stored record or any of the three differs, store the new record and
report `true`, otherwise leave the cache alone and report `false`. -/
def mergeOne (c : StorageCache) (remote : String) (result : StorageData) :
    StorageCache × Bool :=
  let oldData := cacheGet c remote
  let hasChanged : Bool :=
    match oldData with
    | none => true
    | some old =>
        ! (decide (old.total = result.total) && decide (old.used = result.used)
            && decide (old.error = result.error))
  if hasChanged then (cacheSet c remote result, true) else (c, false)

/-- One batch of `runStorageCheckJob`'s inner loop: probe each remote of the
batch and merge its result, accumulating the `hasUpdates` flag
(`storage/route.ts` lines 134-152). Each probe's merge runs atomically on the
single-threaded event loop; the fold order is the completion order of the
batch, which is immaterial for the cache since remote names within a batch
are distinct keys. -/
def mergeBatch (probe : String → StorageData) (batch : List String)
    (c : StorageCache) (h : Bool) : StorageCache × Bool :=
  batch.foldl
    (fun acc r =>
      let m := mergeOne acc.1 r (probe r)
      (m.1, acc.2 || m.2))
    (c, h)

/-- The batching of `remotesToCheck.splice(0, concurrentLimit)` with
`concurrentLimit = 5` (`storage/route.ts` lines 128-133): split the remote
list into consecutive chunks of at most 5 — each `splice` removes the first
`min 5 length` elements, so a list shorter than 5 forms one final chunk. -/
def chunk5 : List String → List (List String)
  | [] => []
  | [a] => [[a]]
  | [a, b] => [[a, b]]
  | [a, b, c] => [[a, b, c]]
  | [a, b, c, d] => [[a, b, c, d]]
  | a :: b :: c :: d :: e :: rest => [a, b, c, d, e] :: chunk5 rest

/-- The `while (remotesToCheck.length > 0)` loop of `runStorageCheckJob`:
process the batches sequentially, threading the cache and the accumulated
`hasUpdates` flag. -/
def processBatches (probe : String → StorageData) (batches : List (List String))
    (c : StorageCache) (h : Bool) : StorageCache × Bool :=
  batches.foldl (fun acc b => mergeBatch probe b acc.1 acc.2) (c, h)

/-- The module-global scheduler state of both route files:
`storageCache`, `backgroundJobRunning`, and whether `backgroundJobTimer`
currently holds a pending timer handle (`null`/unset ↦ `false`). -/
structure JobState where
  storageCache : StorageCache := []
  backgroundJobRunning : Bool := false
  backgroundJobTimer : Bool := false
deriving DecidableEq, Repr

/-- `runStorageCheckJob` (`storage/route.ts` lines 113-188, identical logic
in `stream/route.ts` lines 115-190 apart from the timer interval). The
remotes list is the result of `getRemotesList()`, which returns `[]` both on
an empty listing and on any listing failure; `probe r` is the record
`checkRemoteStorage` returned for remote `r` (it never throws). Returns the
new global state together with whether `notifySubscribers()` was invoked.
If the `backgroundJobRunning` flag is set the call is a no-op; otherwise the
flag is set, the batches are processed (skipped entirely when the remotes
list is empty), subscribers are notified iff some merge reported a change,
and the `finally` block — which runs on success and on exception alike —
clears the flag, clears any pending timer and arms a fresh one. -/
def runStorageCheckJob (probe : String → StorageData) (remotes : List String)
    (s : JobState) : JobState × Bool :=
  if s.backgroundJobRunning then (s, false)
  else
    let s1 : JobState := { s with backgroundJobRunning := true }
    let body : JobState × Bool :=
      if remotes.isEmpty then (s1, false)
      else
        let pb := processBatches probe (chunk5 remotes) s1.storageCache false
        ({ s1 with storageCache := pb.1 }, pb.2)
    ({ body.1 with backgroundJobRunning := false, backgroundJobTimer := true }, body.2)

/-- `startBackgroundJob` (`storage/route.ts` lines 191-196): the lazy start
used by both GET endpoints — trigger a run only when no timer is armed. -/
def startBackgroundJob (probe : String → StorageData) (remotes : List String)
    (s : JobState) : JobState × Bool :=
  if s.backgroundJobTimer then (s, false)
  else runStorageCheckJob probe remotes s

/-- The sequence of `hasChanged` flags of the merges a cycle performs, in
merge order: replaying `mergeOne` over the remotes one at a time. Used to
state "some merge in this cycle reported `changed = true`". -/
def mergeTrace (probe : String → StorageData) : List String → StorageCache → List Bool
  | [], _ => []
  | r :: rs, c =>
      let m := mergeOne c r (probe r)
      m.2 :: mergeTrace probe rs m.1

/-- `Math.min(...Object.values(cache).map(d => d.lastUpdated))` guarded by
`Object.keys(cache).length > 0 ? ... : null` (`storage/route.ts`
lines 208-210). -/
def minLastUpdated (c : StorageCache) : Option Nat :=
  match c.map (fun p => p.2.lastUpdated) with
  | [] => none
  | x :: xs => some (xs.foldl Nat.min x)

/-- Shape of the snapshot endpoint's JSON payload. -/
structure SnapshotResp where
  success : Bool
  data : StorageCache
  lastUpdated : Option Nat
deriving DecidableEq, Repr

namespace StorageRoute

/-- The snapshot `GET` handler (`storage/route.ts` lines 199-222). It calls
`startBackgroundJob` and returns the cached data with the minimum
`lastUpdated`. The handler contains no session lookup — the `authed`
argument records the caller's authentication status, and the `next-auth`
middleware matcher excludes every `/api` path, so the response does not
depend on it. The `try` body cannot throw, so the 500 branch is dead. -/
def GET (authed : Bool) (probe : String → StorageData) (remotes : List String)
    (s : JobState) : JobState × SnapshotResp :=
  let _ := authed
  let st := startBackgroundJob probe remotes s
  (st.1,
    { success := true, data := st.1.storageCache,
      lastUpdated := minLastUpdated st.1.storageCache })

/-- The manual-refresh `POST` handler (`storage/route.ts` lines 225-248):
clear and null any pending timer, fire `runStorageCheckJob` without awaiting
it (its synchronous prefix — the flag check-and-set — runs before the
response is produced; with the flag already set the whole call is that
prefix), and answer `success = true` immediately. -/
def POST (probe : String → StorageData) (remotes : List String)
    (s : JobState) : JobState × Bool :=
  let s1 : JobState := { s with backgroundJobTimer := false }
  let run := runStorageCheckJob probe remotes s1
  (run.1, true)

end StorageRoute

/-- One streaming subscriber: its `handleStorageUpdate` closure, identified
by `id`, with `sinkOpen = false` when its `controller.enqueue` throws
(connection closed). -/
structure Subscriber where
  id : Nat
  sinkOpen : Bool
deriving DecidableEq, Repr

/-- `notifySubscribers` (`storage/route.ts` lines 100-110) combined with the
per-subscriber `handleStorageUpdate` (`stream/route.ts` lines 229-247):
iterate the subscriber set in insertion order; a subscriber with an open
sink receives the snapshot (its id is appended to the delivery list); a
subscriber whose `enqueue` throws catches the error itself and deletes
itself from the set — deleting the element under iteration is safe for a JS
`Set.forEach` and does not affect which other elements are visited. Returns
the subscriber set after the publish and the ids delivered to, in order. -/
def notifySubscribers : List Subscriber → List Subscriber × List Nat
  | [] => ([], [])
  | sub :: rest =>
      let tail := notifySubscribers rest
      if sub.sinkOpen then (sub :: tail.1, sub.id :: tail.2) else tail

namespace StreamRoute

/-- Result of the SSE `GET` handler: a 401 rejection or an open stream whose
first event is the `initial` snapshot. -/
inductive Resp where
  | unauthorized
  | stream (initial : StorageCache)
deriving DecidableEq, Repr

/-- The SSE `GET` handler (`stream/route.ts` lines 201-289): reject with 401
when `getServerSession` yields no session; otherwise lazily start the
background job and open a stream that immediately sends the current cache
as the `initial` event. -/
def GET (authed : Bool) (probe : String → StorageData) (remotes : List String)
    (s : JobState) : JobState × Resp :=
  if authed then
    let st := startBackgroundJob probe remotes s
    (st.1, .stream st.1.storageCache)
  else (s, .unauthorized)

end StreamRoute

/-- `hay.includes(pat)` on the underlying character lists: does `pat` occur
as a contiguous substring? -/
def startsWithChars : List Char → List Char → Bool
  | _, [] => true
  | [], _ :: _ => false
  | h :: hs, p :: ps => decide (h = p) && startsWithChars hs ps

/-- Recursive substring search, mirroring JS `String.prototype.includes`. -/
def containsChars : List Char → List Char → Bool
  | [], pat => startsWithChars [] pat
  | h :: hs, pat => startsWithChars (h :: hs) pat || containsChars hs pat

/-- `s.includes(pat)` for strings. -/
def strIncludes (s pat : String) : Bool := containsChars s.toList pat.toList

/-- The fixed authentication-failure markers of `check/route.ts`
lines 38-40. -/
def authMarkers : List String :=
  ["invalid_grant", "token expired", "couldn't fetch token"]

namespace CheckRoute

/-- The classification of the health-check `POST` handler
(`check/route.ts` lines 33-69) as the `status` field of its response, given
the daemon's reply to `operations/about`: 2xx → `"healthy"`; non-2xx with
`response.status === 500` and a truthy `errorData.error` containing one of
the auth markers → `"token_expired"`; any other non-2xx → `"error"`; a
thrown fetch error (timeout, connection refused, ...) → `"error"`. -/
def healthStatus (resp : DaemonResp) : String :=
  match resp with
  | .success _ _ _ => "healthy"
  | .httpError status errorBody _ =>
      if status == 500
          && (match errorBody with
              | some e => !(decide (e = "")) && authMarkers.any (fun m => strIncludes e m)
              | none => false) then
        "token_expired"
      else "error"
  | .failure _ => "error"

end CheckRoute

/-!
Interleaving model of the scheduler's mutual exclusion. On the Node event
loop, `runStorageCheckJob`'s entry — the `backgroundJobRunning` check and the
assignment setting it (lines 114-119, with no `await` in between) — runs
atomically, and so does the `finally` block (lines 179-187). A cycle's body
suspends at its daemon calls, so triggers from the timer, the lazy starts
and the manual refresh can interleave with a running cycle at those points.
`ConcState.inFlight` counts the cycles that have passed the entry
check-and-set but not yet run their `finally`. -/
structure ConcState where
  backgroundJobRunning : Bool
  inFlight : Nat
  backgroundJobTimer : Bool
deriving DecidableEq, Repr

/-- The scheduler events that touch the shared flags: `trigger` is an
invocation of `runStorageCheckJob` (from the armed timer or directly);
`lazyStart` is `startBackgroundJob` from either GET endpoint, which triggers
only when no timer is armed; `manualClear` is the manual-refresh POST's
clearing of the pending timer (it then issues a plain `trigger`);
`cycleEnd` is a running cycle reaching its `finally` block, which clears the
flag unconditionally (success or exception) and arms a fresh timer. -/
inductive SchedEvent where
  | trigger
  | lazyStart
  | manualClear
  | cycleEnd
deriving DecidableEq, Repr

/-- The guarded entry of `runStorageCheckJob`: a no-op while a cycle is in
progress, otherwise set the flag and begin a cycle. -/
def triggerStep (s : ConcState) : ConcState :=
  if s.backgroundJobRunning then s
  else { s with backgroundJobRunning := true, inFlight := s.inFlight + 1 }

/-- Transition function of the interleaving model. `cycleEnd` with no cycle
in flight cannot occur (there is no `finally` to run); it is modelled as a
no-op to keep the function total. -/
def concStep (s : ConcState) : SchedEvent → ConcState
  | .trigger => triggerStep s
  | .lazyStart => if s.backgroundJobTimer then s else triggerStep s
  | .manualClear => { s with backgroundJobTimer := false }
  | .cycleEnd =>
      if s.inFlight = 0 then s
      else
        { backgroundJobRunning := false, inFlight := s.inFlight - 1,
          backgroundJobTimer := true }

/-- Process start: flag clear, no cycle running, no timer armed. -/
def initConcState : ConcState :=
  { backgroundJobRunning := false, inFlight := 0, backgroundJobTimer := false }

/-- The record invariant of claim C3: a record is healthy (`error` absent,
`total` and `used` present) or failed (`error` present, all three size
fields absent). -/
def wfRecord (d : StorageData) : Bool :=
  (d.error.isNone && d.total.isSome && d.used.isSome)
    || (d.error.isSome && d.total.isNone && d.used.isNone && d.free.isNone)

/-- The daemon RPC contract for `operations/about` (spec §6): a successful
response body carries `total` and `used`. Failure responses are
unconstrained. -/
def respWellFormed : DaemonResp → Bool
  | .success t u _ => t.isSome && u.isSome
  | .httpError _ _ _ => true
  | .failure _ => true

/-- One probe-and-merge operation: which remote, what the daemon answered,
and the probe's completion time. -/
structure ProbeOp where
  remote : String
  resp : DaemonResp
  now : Nat
deriving DecidableEq, Repr

/-- Apply one probe-and-merge operation to the cache: probe (which always
returns a record) and merge the result. -/
def applyOp (c : StorageCache) (op : ProbeOp) : StorageCache :=
  (mergeOne c op.remote (checkRemoteStorage op.resp op.now)).1

/-! Helper lemmas about the cache operations. -/

theorem cacheGet_cacheSet (c : StorageCache) (r : String) (d : StorageData)
    (k : String) :
    cacheGet (cacheSet c r d) k = if r = k then some d else cacheGet c k := by
  induction c with
  | nil => simp [cacheSet, cacheGet]
  | cons p rest ih =>
      obtain ⟨a, v⟩ := p
      by_cases har : a = r
      · subst har
        simp only [cacheSet, if_pos rfl, cacheGet]
        by_cases hak : a = k
        · subst hak; simp
        · simp [hak, cacheGet, if_neg hak]
      · simp only [cacheSet, if_neg har, cacheGet]
        by_cases hak : a = k
        · subst hak
          have hrk : ¬ r = a := fun h => har h.symm
          simp [hrk]
        · simp [hak, ih]

theorem cacheGet_eq_none_iff (c : StorageCache) (r : String) :
    cacheGet c r = none ↔ r ∉ cacheKeys c := by
  induction c with
  | nil => simp [cacheGet, cacheKeys]
  | cons p rest ih =>
      obtain ⟨a, v⟩ := p
      simp only [cacheGet, cacheKeys, List.map_cons, List.mem_cons]
      by_cases hak : a = r
      · simp [hak]
      · have hra : ¬ r = a := fun h => hak h.symm
        simp only [if_neg hak]
        rw [ih]
        simp [cacheKeys, hra]

theorem cacheKeys_cacheSet_of_absent (c : StorageCache) (r : String)
    (d : StorageData) (h : cacheGet c r = none) :
    cacheKeys (cacheSet c r d) = cacheKeys c ++ [r] := by
  induction c with
  | nil => simp [cacheSet, cacheKeys]
  | cons p rest ih =>
      obtain ⟨a, v⟩ := p
      simp only [cacheGet] at h
      by_cases hak : a = r
      · simp [hak] at h
      · simp only [cacheSet, if_neg hak, cacheKeys, List.map_cons]
        simp only [if_neg hak] at h
        simpa [cacheKeys] using ih h

theorem mergeOne_fst_of_absent (c : StorageCache) (r : String) (d : StorageData)
    (h : cacheGet c r = none) :
    mergeOne c r d = (cacheSet c r d, true) := by
  simp [mergeOne, h]

theorem mergeOne_snd_of_present (c : StorageCache) (r : String)
    (d old : StorageData) (h : cacheGet c r = some old) :
    (mergeOne c r d).2
      = ! (decide (old.total = d.total) && decide (old.used = d.used)
            && decide (old.error = d.error)) := by
  by_cases hch :
      (decide (old.total = d.total) && decide (old.used = d.used)
        && decide (old.error = d.error)) = true
  · simp [mergeOne, h, hch]
  · simp only [Bool.not_eq_true] at hch
    simp [mergeOne, h, hch]

theorem mergeOne_fst_mem (c : StorageCache) (r : String) (d : StorageData)
    (k : String) (v : StorageData)
    (h : cacheGet (mergeOne c r d).1 k = some v) :
    v = d ∨ cacheGet c k = some v := by
  unfold mergeOne at h
  by_cases hch :
      ((match cacheGet c r with
        | none => true
        | some old =>
            ! (decide (old.total = d.total) && decide (old.used = d.used)
                && decide (old.error = d.error))) : Bool) = true
  · simp only [hch, if_pos] at h
    rw [cacheGet_cacheSet] at h
    by_cases hrk : r = k
    · simp [hrk] at h; exact Or.inl h.symm
    · simp [hrk] at h; exact Or.inr h
  · simp only [hch, Bool.false_eq_true, if_neg, not_false_eq_true] at h
    · exact Or.inr h

/-! Helper lemmas about batching and the merge fold. -/

theorem mergeBatch_nil (probe : String → StorageData) (c : StorageCache) (h : Bool) :
    mergeBatch probe [] c h = (c, h) := rfl

theorem mergeBatch_cons (probe : String → StorageData) (r : String)
    (rs : List String) (c : StorageCache) (h : Bool) :
    mergeBatch probe (r :: rs) c h
      = mergeBatch probe rs (mergeOne c r (probe r)).1 (h || (mergeOne c r (probe r)).2) := by
  simp [mergeBatch]

theorem mergeBatch_append (probe : String → StorageData) (a b : List String)
    (c : StorageCache) (h : Bool) :
    mergeBatch probe (a ++ b) c h
      = mergeBatch probe b (mergeBatch probe a c h).1 (mergeBatch probe a c h).2 := by
  simp only [mergeBatch, List.foldl_append]

theorem chunk5_eq_cons (l : List String) (hl : l ≠ []) :
    chunk5 l = l.take 5 :: chunk5 (l.drop 5) := by
  match l, hl with
  | [a], _ => rfl
  | [a, b], _ => rfl
  | [a, b, c], _ => rfl
  | [a, b, c, d], _ => rfl
  | a :: b :: c :: d :: e :: rest, _ => rfl

theorem processBatches_cons (probe : String → StorageData) (b : List String)
    (bs : List (List String)) (c : StorageCache) (h : Bool) :
    processBatches probe (b :: bs) c h
      = processBatches probe bs (mergeBatch probe b c h).1 (mergeBatch probe b c h).2 := by
  simp only [processBatches, List.foldl_cons]

theorem processBatches_chunk5 (probe : String → StorageData) :
    ∀ l : List String, ∀ (c : StorageCache) (h : Bool),
      processBatches probe (chunk5 l) c h = mergeBatch probe l c h := by
  intro l
  induction l using chunk5.induct with
  | case1 => intro c h; rfl
  | case2 a => intro c h; rfl
  | case3 a b => intro c h; rfl
  | case4 a b cc => intro c h; rfl
  | case5 a b cc dd => intro c h; rfl
  | case6 a b cc dd e rest ih =>
      intro c h
      rw [show chunk5 (a :: b :: cc :: dd :: e :: rest)
            = [a, b, cc, dd, e] :: chunk5 rest from rfl,
        processBatches_cons, ih, ← mergeBatch_append]
      rfl

theorem mergeBatch_snd_eq_trace (probe : String → StorageData) :
    ∀ (l : List String) (c : StorageCache) (h : Bool),
      (mergeBatch probe l c h).2 = (h || (mergeTrace probe l c).any id) := by
  intro l
  induction l with
  | nil => intro c h; simp [mergeBatch_nil, mergeTrace]
  | cons r rs ih =>
      intro c h
      rw [mergeBatch_cons, ih]
      simp [mergeTrace, Bool.or_assoc]

theorem mergeBatch_keys_of_fresh (probe : String → StorageData) :
    ∀ (l : List String) (c : StorageCache) (h : Bool),
      (∀ r ∈ l, cacheGet c r = none) → l.Nodup →
      cacheKeys (mergeBatch probe l c h).1 = cacheKeys c ++ l := by
  intro l
  induction l with
  | nil => intro c h _ _; simp [mergeBatch_nil]
  | cons r rs ih =>
      intro c h hfresh hnodup
      have hr : cacheGet c r = none := hfresh r (by simp)
      rw [mergeBatch_cons, mergeOne_fst_of_absent c r (probe r) hr]
      have hkeys : cacheKeys (cacheSet c r (probe r)) = cacheKeys c ++ [r] :=
        cacheKeys_cacheSet_of_absent c r (probe r) hr
      have hfresh2 : ∀ r' ∈ rs, cacheGet (cacheSet c r (probe r)) r' = none := by
        intro r' hr'
        rw [cacheGet_cacheSet]
        have hne : ¬ r = r' := by
          intro he; subst he
          exact (List.nodup_cons.mp hnodup).1 hr'
        rw [if_neg hne]
        exact hfresh r' (List.mem_cons_of_mem _ hr')
      rw [ih (cacheSet c r (probe r)) _ hfresh2 (List.nodup_cons.mp hnodup).2, hkeys]
      simp

theorem runStorageCheckJob_snd_eq_trace (probe : String → StorageData)
    (remotes : List String) (s : JobState) (h : s.backgroundJobRunning = false) :
    (runStorageCheckJob probe remotes s).2
      = (mergeTrace probe remotes s.storageCache).any id := by
  unfold runStorageCheckJob
  rw [if_neg (by simp [h])]
  by_cases hemp : remotes.isEmpty
  · have : remotes = [] := List.isEmpty_iff.mp hemp
    subst this
    simp [mergeTrace]
  · simp only [hemp, Bool.false_eq_true, if_neg, not_false_eq_true]
    rw [processBatches_chunk5, mergeBatch_snd_eq_trace]
    simp

/-! Helper lemmas for the record invariant (healthy xor failed). -/

theorem wfRecord_checkRemoteStorage (resp : DaemonResp) (now : Nat)
    (h : respWellFormed resp = true) :
    wfRecord (checkRemoteStorage resp now) = true := by
  cases resp with
  | success t u f =>
      simp only [respWellFormed, Bool.and_eq_true] at h
      simp [checkRemoteStorage, wfRecord, h.1, h.2]
  | httpError status errorBody statusText => simp [checkRemoteStorage, wfRecord]
  | failure msg => simp [checkRemoteStorage, wfRecord]

theorem mergeOne_preserves_wf (c : StorageCache) (r : String) (d : StorageData)
    (hd : wfRecord d = true)
    (hc : ∀ k v, cacheGet c k = some v → wfRecord v = true) :
    ∀ k v, cacheGet (mergeOne c r d).1 k = some v → wfRecord v = true := by
  intro k v hk
  rcases mergeOne_fst_mem c r d k v hk with he | he
  · rw [he]; exact hd
  · exact hc k v he

theorem foldl_applyOp_wf :
    ∀ (ops : List ProbeOp) (c : StorageCache),
      (∀ op ∈ ops, respWellFormed op.resp = true) →
      (∀ k v, cacheGet c k = some v → wfRecord v = true) →
      ∀ k v, cacheGet (ops.foldl applyOp c) k = some v → wfRecord v = true := by
  intro ops
  induction ops with
  | nil => intro c _ hc; simpa using hc
  | cons op rest ih =>
      intro c hops hc
      simp only [List.foldl_cons]
      refine ih (applyOp c op) (fun o ho => hops o (List.mem_cons_of_mem _ ho)) ?_
      exact mergeOne_preserves_wf c op.remote (checkRemoteStorage op.resp op.now)
        (wfRecord_checkRemoteStorage op.resp op.now (hops op (by simp)))
        hc

/-! Helper lemmas for the interleaving model of the scheduler. -/

/-- The mutual-exclusion invariant: the in-progress flag is set iff exactly
one cycle is between its entry check-and-set and its `finally`. -/
def concGood (s : ConcState) : Prop :=
  s.inFlight = if s.backgroundJobRunning then 1 else 0

theorem concGood_init : concGood initConcState := rfl

theorem concGood_triggerStep (s : ConcState) (h : concGood s) :
    concGood (triggerStep s) := by
  unfold triggerStep
  by_cases hr : s.backgroundJobRunning
  · simpa [hr]
  · unfold concGood at h ⊢
    simp only [hr, Bool.false_eq_true, if_neg, not_false_eq_true] at h
    simp [hr, h]

theorem concGood_step (s : ConcState) (e : SchedEvent) (h : concGood s) :
    concGood (concStep s e) := by
  cases e with
  | trigger => exact concGood_triggerStep s h
  | lazyStart =>
      unfold concStep
      by_cases ht : s.backgroundJobTimer
      · simpa [ht]
      · simp only [ht, Bool.false_eq_true, if_neg, not_false_eq_true]
        exact concGood_triggerStep s h
  | manualClear => exact h
  | cycleEnd =>
      unfold concStep
      by_cases hz : s.inFlight = 0
      · simpa [hz]
      · unfold concGood at h ⊢
        simp only [hz, if_neg, not_false_eq_true]
        by_cases hr : s.backgroundJobRunning
        · rw [hr] at h; simp at h; simp [h]
        · simp only [Bool.not_eq_true] at hr
          rw [hr] at h; simp at h; exact absurd h hz

theorem concGood_foldl :
    ∀ (evs : List SchedEvent) (s : ConcState), concGood s →
      concGood (evs.foldl concStep s) := by
  intro evs
  induction evs with
  | nil => intro s h; simpa
  | cons e rest ih =>
      intro s h
      simpa using ih (concStep s e) (concGood_step s e h)

/-! Helper lemmas about the chunk structure. -/

theorem chunk5_mem (bt : List String) :
    ∀ l : List String, bt ∈ chunk5 l → bt ≠ [] ∧ bt.length ≤ 5 := by
  intro l
  induction l using chunk5.induct with
  | case1 => intro hb; simp [chunk5] at hb
  | case2 a => intro hb; simp only [chunk5, List.mem_singleton] at hb; simp [hb]
  | case3 a b => intro hb; simp only [chunk5, List.mem_singleton] at hb; simp [hb]
  | case4 a b cc => intro hb; simp only [chunk5, List.mem_singleton] at hb; simp [hb]
  | case5 a b cc dd => intro hb; simp only [chunk5, List.mem_singleton] at hb; simp [hb]
  | case6 a b cc dd e rest ih =>
      intro hb
      rcases List.mem_cons.mp hb with he | hm
      · subst he; constructor
        · simp
        · simp
      · exact ih hm

theorem chunk5_flatten :
    ∀ l : List String, (chunk5 l).flatten = l := by
  intro l
  induction l using chunk5.induct with
  | case1 => rfl
  | case2 a => rfl
  | case3 a b => rfl
  | case4 a b cc => rfl
  | case5 a b cc dd => rfl
  | case6 a b cc dd e rest ih =>
      show [a, b, cc, dd, e] ++ (chunk5 rest).flatten = _
      rw [ih]
      rfl

theorem chunk5_map_length_of_six (l : List String) (h : l.length = 6) :
    (chunk5 l).map List.length = [5, 1] := by
  have h1 : l ≠ [] := by intro he; rw [he] at h; simp at h
  have hd1 : (l.drop 5).length = 1 := by simp [h]
  have h2 : l.drop 5 ≠ [] := by
    intro he; rw [he] at hd1; simp at hd1
  have hd2 : (l.drop 5).drop 5 = [] := by
    apply List.eq_nil_of_length_eq_zero
    simp only [List.length_drop]
    omega
  rw [chunk5_eq_cons l h1, chunk5_eq_cons (l.drop 5) h2, hd2,
    show chunk5 [] = [] from rfl]
  have ht1 : (l.take 5).length = 5 := by simp [h]
  have ht2 : ((l.drop 5).take 5).length = 1 := by simp [hd1]
  simp [ht1, ht2]

/-! Helper lemma about publishing to subscribers. -/

theorem notifySubscribers_eq (subs : List Subscriber) :
    notifySubscribers subs
      = (subs.filter (fun t => t.sinkOpen),
         (subs.filter (fun t => t.sinkOpen)).map Subscriber.id) := by
  induction subs with
  | nil => rfl
  | cons sub rest ih =>
      by_cases hs : sub.sinkOpen
      · simp [notifySubscribers, ih, List.filter_cons, hs]
      · simp only [Bool.not_eq_true] at hs
        simp [notifySubscribers, ih, List.filter_cons, hs]

/-! The claims. -/

/-- C1: the merge reports `changed = false` exactly when a stored record
exists that agrees with the new one on `total`, `used` and `error`
(differences in `free` or `lastUpdated` alone do not count), and
`changed = true` when one of the three differs or no record was stored;
over a whole cycle, `notifySubscribers` is invoked iff some merge of the
cycle reported `changed = true`. -/
theorem mergeOne_change_detection_and_notify :
    (∀ (c : StorageCache) (r : String) (d : StorageData),
        ((mergeOne c r d).2 = true ↔
          cacheGet c r = none ∨
            ∃ old, cacheGet c r = some old ∧
              (old.total ≠ d.total ∨ old.used ≠ d.used ∨ old.error ≠ d.error)))
  ∧ (∀ (probe : String → StorageData) (remotes : List String) (s : JobState),
        s.backgroundJobRunning = false →
        ((runStorageCheckJob probe remotes s).2 = true ↔
          true ∈ mergeTrace probe remotes s.storageCache)) := by
  constructor
  · intro c r d
    cases hget : cacheGet c r with
    | none => simp [mergeOne_fst_of_absent c r d hget, hget]
    | some old =>
        rw [mergeOne_snd_of_present c r d old hget]
        simp only [hget, Bool.not_eq_eq_eq_not, Bool.not_true, Bool.and_eq_false_imp]
        constructor
        · intro h
          refine Or.inr ⟨old, rfl, ?_⟩
          by_contra hcon
          push_neg at hcon
          simp [hcon.1, hcon.2.1, hcon.2.2] at h
        · rintro (hno | ⟨old', hold', hdiff⟩)
          · exact absurd hno (by simp)
          · have : old' = old := (Option.some_inj.mp hold').symm
            subst this
            rcases hdiff with hd | hd | hd <;> simp [hd]
  · intro probe remotes s h
    rw [runStorageCheckJob_snd_eq_trace probe remotes s h, List.any_eq_true]
    constructor
    · rintro ⟨x, hx, hxt⟩
      simp only [id] at hxt
      rwa [hxt] at hx
    · intro hmem
      exact ⟨true, hmem, rfl⟩

/-- Witness for C1: a cycle over one remote probed into an empty cache has
its first merge report `changed = true`, and the subscribers are
notified. -/
theorem mergeOne_change_detection_and_notify_witness :
    (runStorageCheckJob (fun _ => { lastUpdated := 7, error := some "boom" }) ["a"]
        { storageCache := [], backgroundJobRunning := false,
          backgroundJobTimer := false }).2 = true := by
  have h := mergeOne_change_detection_and_notify.2
    (fun _ => { lastUpdated := 7, error := some "boom" }) ["a"]
    { storageCache := [], backgroundJobRunning := false, backgroundJobTimer := false }
    rfl
  exact h.mpr (by decide)

/-- C2: under every interleaving of scheduler events (timer triggers, lazy
starts from either endpoint, the manual-refresh timer clear, cycle
completions), at most one refresh cycle is in flight at any instant; a
trigger while the in-progress flag is set is a no-op (in the interleaving
model and in `runStorageCheckJob` itself); a cycle's completion clears the
flag and arms a new timer; and a cycle that did enter always leaves the
flag cleared and the timer armed, whatever the remotes and probe results
were. -/
theorem scheduler_single_cycle (evs : List SchedEvent) :
    (evs.foldl concStep initConcState).inFlight ≤ 1
  ∧ (∀ s : ConcState, s.backgroundJobRunning = true → concStep s .trigger = s)
  ∧ (∀ s : ConcState, s.inFlight ≠ 0 →
      (concStep s .cycleEnd).backgroundJobRunning = false
        ∧ (concStep s .cycleEnd).backgroundJobTimer = true)
  ∧ (∀ (probe : String → StorageData) (remotes : List String) (s : JobState),
      s.backgroundJobRunning = true → runStorageCheckJob probe remotes s = (s, false))
  ∧ (∀ (probe : String → StorageData) (remotes : List String) (s : JobState),
      s.backgroundJobRunning = false →
      (runStorageCheckJob probe remotes s).1.backgroundJobRunning = false
        ∧ (runStorageCheckJob probe remotes s).1.backgroundJobTimer = true) := by
  refine ⟨?_, ?_, ?_, ?_, ?_⟩
  · have hg := concGood_foldl evs initConcState concGood_init
    unfold concGood at hg
    rw [hg]
    by_cases hr : (evs.foldl concStep initConcState).backgroundJobRunning <;> simp [hr]
  · intro s h
    simp [concStep, triggerStep, h]
  · intro s h
    simp [concStep, h]
  · intro probe remotes s h
    simp [runStorageCheckJob, h]
  · intro probe remotes s h
    unfold runStorageCheckJob
    rw [if_neg (by simp [h])]
    by_cases hemp : remotes.isEmpty <;> simp [hemp]

/-- Witness for C2: two triggers in a row leave at most one cycle in
flight; a second trigger on a running state is absorbed; completing that
cycle clears the flag and arms the timer; and the job function behaves
accordingly on concrete states. -/
theorem scheduler_single_cycle_witness :
    (([SchedEvent.trigger, SchedEvent.trigger]).foldl concStep initConcState).inFlight ≤ 1
  ∧ concStep
      { backgroundJobRunning := true, inFlight := 1, backgroundJobTimer := false }
      .trigger
      = { backgroundJobRunning := true, inFlight := 1, backgroundJobTimer := false }
  ∧ ((concStep
        { backgroundJobRunning := true, inFlight := 1, backgroundJobTimer := false }
        .cycleEnd).backgroundJobRunning = false
      ∧ (concStep
          { backgroundJobRunning := true, inFlight := 1, backgroundJobTimer := false }
          .cycleEnd).backgroundJobTimer = true)
  ∧ runStorageCheckJob (fun _ => { lastUpdated := 3 }) ["a"]
      { storageCache := [], backgroundJobRunning := true, backgroundJobTimer := false }
      = ({ storageCache := [], backgroundJobRunning := true,
           backgroundJobTimer := false }, false)
  ∧ ((runStorageCheckJob (fun _ => { lastUpdated := 3 }) ["a"]
        { storageCache := [], backgroundJobRunning := false,
          backgroundJobTimer := false }).1.backgroundJobRunning = false
      ∧ (runStorageCheckJob (fun _ => { lastUpdated := 3 }) ["a"]
          { storageCache := [], backgroundJobRunning := false,
            backgroundJobTimer := false }).1.backgroundJobTimer = true) := by
  have h := scheduler_single_cycle [SchedEvent.trigger, SchedEvent.trigger]
  exact ⟨h.1,
    h.2.1 { backgroundJobRunning := true, inFlight := 1, backgroundJobTimer := false } rfl,
    h.2.2.1 { backgroundJobRunning := true, inFlight := 1, backgroundJobTimer := false }
      (by decide),
    h.2.2.2.1 (fun _ => { lastUpdated := 3 }) ["a"]
      { storageCache := [], backgroundJobRunning := true, backgroundJobTimer := false } rfl,
    h.2.2.2.2 (fun _ => { lastUpdated := 3 }) ["a"]
      { storageCache := [], backgroundJobRunning := false, backgroundJobTimer := false } rfl⟩

/-- C3: assuming the daemon contract that a successful `about` body carries
`total` and `used`, every probe result is healthy (`error` absent, `total`
and `used` present) or failed (`error` present, all size fields absent) —
and `checkRemoteStorage` returns such a record rather than throwing, being
a total function — and after any sequence of probe-and-merge operations
starting from the empty cache, every stored record satisfies the same
invariant. -/
theorem cache_record_health_invariant (ops : List ProbeOp)
    (hops : ∀ op ∈ ops, respWellFormed op.resp = true) :
    (∀ op ∈ ops, wfRecord (checkRemoteStorage op.resp op.now) = true)
  ∧ (∀ r d, cacheGet (ops.foldl applyOp []) r = some d → wfRecord d = true) := by
  refine ⟨fun op ho => wfRecord_checkRemoteStorage op.resp op.now (hops op ho), ?_⟩
  refine foldl_applyOp_wf ops [] hops ?_
  intro k v h
  simp [cacheGet] at h

/-- Witness for C3: after a healthy probe of `"a"` and a failed probe of
`"b"` merged into an empty cache, the record stored for `"b"` satisfies the
invariant. -/
theorem cache_record_health_invariant_witness :
    wfRecord
      { lastUpdated := 101,
        error := some "API error: 500 - invalid_grant" } = true := by
  have h := (cache_record_health_invariant
      [{ remote := "a", resp := .success (some 10) (some 4) (some 6), now := 100 },
       { remote := "b", resp := .httpError 500 (some "invalid_grant") "ISE", now := 101 }]
      (by decide)).2
  exact h "b" _ (by decide)

/-- C4: a cycle entered with the flag clear whose remote listing failed or
was empty (`getRemotesList` returns `[]` in both cases) ends with the cache
exactly as it was, the in-progress flag cleared, a fresh timer armed, and no
subscriber notification. -/
theorem empty_enumeration_preserves_cache (probe : String → StorageData)
    (s : JobState) (h : s.backgroundJobRunning = false) :
    runStorageCheckJob probe [] s
      = ({ s with backgroundJobRunning := false, backgroundJobTimer := true }, false)
  ∧ (runStorageCheckJob probe [] s).1.storageCache = s.storageCache := by
  constructor
  · unfold runStorageCheckJob
    rw [if_neg (by simp [h])]
    rfl
  · unfold runStorageCheckJob
    rw [if_neg (by simp [h])]
    rfl

/-- Witness for C4: an empty enumeration over a populated cache leaves the
cache intact. -/
theorem empty_enumeration_preserves_cache_witness :
    runStorageCheckJob (fun _ => { lastUpdated := 9 }) []
      { storageCache := [("a", { total := some 5, used := some 2, free := some 3,
                                 lastUpdated := 50 })],
        backgroundJobRunning := false, backgroundJobTimer := true }
      = ({ storageCache := [("a", { total := some 5, used := some 2, free := some 3,
                                    lastUpdated := 50 })],
           backgroundJobRunning := false, backgroundJobTimer := true }, false)
  ∧ (runStorageCheckJob (fun _ => { lastUpdated := 9 }) []
      { storageCache := [("a", { total := some 5, used := some 2, free := some 3,
                                 lastUpdated := 50 })],
        backgroundJobRunning := false, backgroundJobTimer := true }).1.storageCache
      = [("a", { total := some 5, used := some 2, free := some 3, lastUpdated := 50 })] :=
  empty_enumeration_preserves_cache (fun _ => { lastUpdated := 9 })
    { storageCache := [("a", { total := some 5, used := some 2, free := some 3,
                               lastUpdated := 50 })],
      backgroundJobRunning := false, backgroundJobTimer := true } rfl

/-- C5 counterexample: a probe of remote `"a"` completes at time `200` with
the same `total`/`used`/`error` as the stored record, so the merge reports
no change and the cache entry after the cycle still carries the old
`lastUpdated = 100`, not the probe's completion time — refuting the claim
that the cache entry carries the completion timestamp for every probed
remote. -/
theorem lastUpdated_stale_on_unchanged_merge :
    (checkRemoteStorage (.success (some 1) (some 2) (some 3)) 200).lastUpdated = 200
  ∧ (runStorageCheckJob
        (fun _ => checkRemoteStorage (.success (some 1) (some 2) (some 3)) 200) ["a"]
        { storageCache := [("a", { total := some 1, used := some 2, free := some 3,
                                   lastUpdated := 100 })],
          backgroundJobRunning := false, backgroundJobTimer := false }).1.storageCache
      = [("a", { total := some 1, used := some 2, free := some 3, lastUpdated := 100 })]
  ∧ (100 : Nat) ≠ 200 := by
  refine ⟨rfl, ?_, by decide⟩
  decide

/-- C5 (amended): every record `checkRemoteStorage` returns is stamped with
the probe's completion time, for successful and failed probes alike; the
cache entry carries that record — and hence that timestamp — whenever the
merge reports `changed = true`, while a merge reporting `changed = false`
leaves the cache, and thus the entry's older `lastUpdated`, untouched. -/
theorem lastUpdated_at_completion (resp : DaemonResp) (now : Nat)
    (c : StorageCache) (r : String) (d : StorageData) :
    (checkRemoteStorage resp now).lastUpdated = now
  ∧ ((mergeOne c r d).2 = true → cacheGet (mergeOne c r d).1 r = some d)
  ∧ ((mergeOne c r d).2 = false → (mergeOne c r d).1 = c) := by
  have hor : mergeOne c r d = (cacheSet c r d, true) ∨ mergeOne c r d = (c, false) := by
    unfold mergeOne
    dsimp only
    split
    · exact Or.inl rfl
    · exact Or.inr rfl
  refine ⟨?_, ?_, ?_⟩
  · cases resp <;> rfl
  · intro h
    rcases hor with he | he
    · rw [he, cacheGet_cacheSet]
      simp
    · rw [he] at h
      simp at h
  · intro h
    rcases hor with he | he
    · rw [he] at h
      simp at h
    · rw [he]

/-- Witness for C5 (amended): a failed probe is stamped at its completion
time `42`, and a changed merge into the empty cache stores the probe's
record. -/
theorem lastUpdated_at_completion_witness :
    (checkRemoteStorage (.failure "down") 42).lastUpdated = 42
  ∧ cacheGet (mergeOne [] "a" { lastUpdated := 5 }).1 "a" = some { lastUpdated := 5 } :=
  ⟨(lastUpdated_at_completion (.failure "down") 42 [] "a" { lastUpdated := 5 }).1,
   (lastUpdated_at_completion (.failure "down") 42 [] "a" { lastUpdated := 5 }).2.1
     (by decide)⟩

/-- C7: a cycle over a non-empty remote list partitions it into consecutive
batches of at most 5 (their concatenation in order is exactly the remote
list, so batch N+1's probes start only after batch N's merges, and at most
5 probes are outstanding at once); a list of 6 remotes yields one batch of
5 and one of 1; and starting from an empty cache the remotes stored after
the cycle are exactly the listed ones, in order. -/
theorem batch_partition_and_cache_population (probe : String → StorageData)
    (remotes : List String) (s : JobState)
    (hrun : s.backgroundJobRunning = false) (hcache : s.storageCache = [])
    (hnodup : remotes.Nodup) :
    (∀ bt ∈ chunk5 remotes, bt ≠ [] ∧ bt.length ≤ 5)
  ∧ (chunk5 remotes).flatten = remotes
  ∧ cacheKeys (runStorageCheckJob probe remotes s).1.storageCache = remotes
  ∧ (remotes.length = 6 → (chunk5 remotes).map List.length = [5, 1]) := by
  refine ⟨fun bt hb => chunk5_mem bt remotes hb, chunk5_flatten remotes, ?_,
    chunk5_map_length_of_six remotes⟩
  unfold runStorageCheckJob
  rw [if_neg (by simp [hrun])]
  by_cases hemp : remotes.isEmpty
  · have he : remotes = [] := List.isEmpty_iff.mp hemp
    subst he
    simp [hcache, cacheKeys]
  · simp only [hemp, Bool.false_eq_true, if_neg, not_false_eq_true]
    rw [processBatches_chunk5]
    have := mergeBatch_keys_of_fresh probe remotes s.storageCache false
      (fun r _ => by rw [hcache]; rfl) hnodup
    rw [this, hcache]
    rfl

/-- Witness for C7: six remotes are probed as one batch of five then one of
one, and the empty cache ends with exactly those six entries. -/
theorem batch_partition_and_cache_population_witness :
    (∀ bt ∈ chunk5 ["a", "b", "c", "d", "e", "f"], bt ≠ [] ∧ bt.length ≤ 5)
  ∧ (chunk5 ["a", "b", "c", "d", "e", "f"]).flatten = ["a", "b", "c", "d", "e", "f"]
  ∧ cacheKeys (runStorageCheckJob (fun _ => { lastUpdated := 10, error := some "x" })
        ["a", "b", "c", "d", "e", "f"]
        { storageCache := [], backgroundJobRunning := false,
          backgroundJobTimer := false }).1.storageCache
      = ["a", "b", "c", "d", "e", "f"]
  ∧ (["a", "b", "c", "d", "e", "f"].length = 6 →
      (chunk5 ["a", "b", "c", "d", "e", "f"]).map List.length = [5, 1]) :=
  batch_partition_and_cache_population (fun _ => { lastUpdated := 10, error := some "x" })
    ["a", "b", "c", "d", "e", "f"]
    { storageCache := [], backgroundJobRunning := false, backgroundJobTimer := false }
    rfl rfl (by decide)

/-- C6: a publish delivers the snapshot to every subscriber with an open
sink exactly once (assuming distinct subscriber identities, as each
`handleStorageUpdate` closure is a distinct set element), and afterwards the
subscriber set is exactly the previous set minus the subscribers whose
sinks failed — a failing sink removes that subscriber and only that
subscriber, never blocking delivery to the others. -/
theorem publish_delivery_and_removal (subs : List Subscriber)
    (hids : (subs.map Subscriber.id).Nodup) :
    (notifySubscribers subs).1 = subs.filter (fun t => t.sinkOpen)
  ∧ (∀ t ∈ subs, t.sinkOpen = true → (notifySubscribers subs).2.count t.id = 1)
  ∧ (∀ t ∈ subs, t.sinkOpen = false →
      t.id ∉ (notifySubscribers subs).2 ∧ t ∉ (notifySubscribers subs).1) := by
  rw [notifySubscribers_eq]
  have hsub : List.Sublist ((subs.filter (fun t => t.sinkOpen)).map Subscriber.id)
      (subs.map Subscriber.id) :=
    (List.filter_sublist subs).map Subscriber.id
  have hnd : ((subs.filter (fun t => t.sinkOpen)).map Subscriber.id).Nodup :=
    hids.sublist hsub
  refine ⟨rfl, ?_, ?_⟩
  · intro t ht hopen
    have hmem : t.id ∈ (subs.filter (fun t => t.sinkOpen)).map Subscriber.id :=
      List.mem_map.mpr ⟨t, List.mem_filter.mpr ⟨ht, hopen⟩, rfl⟩
    exact List.count_eq_one_of_mem hnd hmem
  · intro t ht hclosed
    constructor
    · intro hmem
      rcases List.mem_map.mp hmem with ⟨u, humem, huid⟩
      have hu := List.mem_filter.mp humem
      have : u = t := List.inj_on_of_nodup_map hids hu.1 ht huid
      rw [this] at hu
      rw [hclosed] at hu
      exact Bool.false_ne_true hu.2
    · intro hmem
      have hu := List.mem_filter.mp hmem
      rw [hclosed] at hu
      exact Bool.false_ne_true hu.2

/-- Witness for C6: of three subscribers with subscriber 2's sink closed,
the publish delivers to 1 and 3 exactly once each, and afterwards the set
holds exactly subscribers 1 and 3. -/
theorem publish_delivery_and_removal_witness :
    (notifySubscribers
        [{ id := 1, sinkOpen := true }, { id := 2, sinkOpen := false },
         { id := 3, sinkOpen := true }]).1
      = [{ id := 1, sinkOpen := true }, { id := 3, sinkOpen := true }]
  ∧ (notifySubscribers
        [{ id := 1, sinkOpen := true }, { id := 2, sinkOpen := false },
         { id := 3, sinkOpen := true }]).2.count 1 = 1
  ∧ (2 : Nat) ∉ (notifySubscribers
        [{ id := 1, sinkOpen := true }, { id := 2, sinkOpen := false },
         { id := 3, sinkOpen := true }]).2 := by
  have h := publish_delivery_and_removal
    [{ id := 1, sinkOpen := true }, { id := 2, sinkOpen := false },
     { id := 3, sinkOpen := true }] (by decide)
  refine ⟨h.1.trans (by decide), ?_, ?_⟩
  · exact h.2.1 { id := 1, sinkOpen := true } (by decide) rfl
  · exact (h.2.2 { id := 2, sinkOpen := false } (by decide) rfl).1

/-- C8 counterexample: a daemon response with the non-success status `403`
and error body containing the marker `"invalid_grant"` yields a cache
record with `error` set, but the health check classifies it as the generic
`"error"`, not `"token_expired"` — the code requires status exactly `500`
for the authentication-expiry classification, refuting the claim for
every non-success status. -/
theorem non500_auth_marker_not_token_expired :
    strIncludes "invalid_grant" "invalid_grant" = true
  ∧ Option.isSome
      (checkRemoteStorage (.httpError 403 (some "invalid_grant") "Forbidden") 7).error
      = true
  ∧ CheckRoute.healthStatus (.httpError 403 (some "invalid_grant") "Forbidden")
      = "error"
  ∧ ("error" : String) ≠ "token_expired" := by
  refine ⟨by decide, rfl, by decide, by decide⟩

/-- C8 (amended): a capacity probe whose daemon response has HTTP status
exactly `500` with a non-empty error body containing an
authentication-failure marker yields a record with `error` set and is
classified `token_expired` by the health check; a non-500 failure status, a
body without any marker, and a network-level failure are all classified as
the generic `"error"`; and every non-2xx response yields a record with
`error` set. -/
theorem auth_expiry_classification (eb stt : String) (now : Nat)
    (hmark : authMarkers.any (fun m => strIncludes eb m) = true)
    (hne : eb ≠ "") :
    Option.isSome (checkRemoteStorage (.httpError 500 (some eb) stt) now).error = true
  ∧ CheckRoute.healthStatus (.httpError 500 (some eb) stt) = "token_expired"
  ∧ (∀ (status : Nat) (eb2 : Option String) (stt2 : String), status ≠ 500 →
      CheckRoute.healthStatus (.httpError status eb2 stt2) = "error")
  ∧ (∀ (status : Nat) (eb2 stt2 : String),
      authMarkers.any (fun m => strIncludes eb2 m) = false →
      CheckRoute.healthStatus (.httpError status (some eb2) stt2) = "error")
  ∧ (∀ msg, CheckRoute.healthStatus (.failure msg) = "error")
  ∧ (∀ (status : Nat) (eb2 : Option String) (stt2 : String) (now2 : Nat),
      Option.isSome (checkRemoteStorage (.httpError status eb2 stt2) now2).error
        = true) := by
  refine ⟨rfl, ?_, ?_, ?_, fun msg => rfl, fun status eb2 stt2 now2 => rfl⟩
  · simp [CheckRoute.healthStatus, hmark, hne]
  · intro status eb2 stt2 hs
    have hb : (status == 500) = false := by
      simpa using hs
    simp [CheckRoute.healthStatus, hb]
  · intro status eb2 stt2 hm
    simp [CheckRoute.healthStatus, hm]

/-- Witness for C8 (amended): the daemon answering `500` with body
`"oauth2: invalid_grant"` gives a record with `error` set and the health
status `token_expired`; the same body at status `403` gives `"error"`. -/
theorem auth_expiry_classification_witness :
    Option.isSome
      (checkRemoteStorage (.httpError 500 (some "oauth2: invalid_grant") "ISE") 3).error
      = true
  ∧ CheckRoute.healthStatus (.httpError 500 (some "oauth2: invalid_grant") "ISE")
      = "token_expired"
  ∧ CheckRoute.healthStatus (.httpError 403 (some "oauth2: invalid_grant") "F")
      = "error" := by
  have h := auth_expiry_classification "oauth2: invalid_grant" "ISE" 3
    (by decide) (by decide)
  exact ⟨h.1, h.2.1, h.2.2.1 403 (some "oauth2: invalid_grant") "F" (by decide)⟩

/-- C9 counterexample: an unauthenticated call of the snapshot pull
endpoint is not rejected — the handler performs no authentication check and
answers `success = true` with the cache content, refuting the claim that
both read interfaces fail closed for unauthenticated callers. -/
theorem snapshot_get_unauthenticated_success :
    (StorageRoute.GET false (fun _ => { lastUpdated := 0 }) []
        { storageCache := [], backgroundJobRunning := false,
          backgroundJobTimer := false }).2
      = { success := true, data := [], lastUpdated := none } := by
  decide

/-- C9 (amended): the streaming interface fails closed — an unauthenticated
caller receives an immediate `401` rejection and an authenticated caller
receives a stream opening with the current snapshot — while the snapshot
pull interface performs no authentication check at all: every caller,
authenticated or not, receives the structurally valid
`success = true` payload carrying the cache (empty mapping at worst), and
its response is entirely independent of the caller's authentication. -/
theorem endpoint_auth_behavior :
    (∀ (probe : String → StorageData) (remotes : List String) (s : JobState),
        StreamRoute.GET false probe remotes s = (s, .unauthorized))
  ∧ (∀ (probe : String → StorageData) (remotes : List String) (s : JobState),
        (StreamRoute.GET true probe remotes s).2
          = .stream (startBackgroundJob probe remotes s).1.storageCache)
  ∧ (∀ (authed : Bool) (probe : String → StorageData) (remotes : List String)
        (s : JobState),
        (StorageRoute.GET authed probe remotes s).2.success = true
      ∧ (StorageRoute.GET authed probe remotes s).2.data
          = (startBackgroundJob probe remotes s).1.storageCache
      ∧ StorageRoute.GET authed probe remotes s
          = StorageRoute.GET true probe remotes s) := by
  refine ⟨fun probe remotes s => rfl, fun probe remotes s => rfl,
    fun authed probe remotes s => ⟨rfl, rfl, rfl⟩⟩

/-- C10: a manual refresh issued while a cycle is in progress clears and
nulls the pending timer, absorbs its own trigger against the in-progress
flag (the fired job returns without touching the cache, the flag, or the
subscribers), and still answers `success = true` immediately; the next
timer is then the one the in-progress cycle arms when its `finally`
runs. -/
theorem manual_refresh_during_cycle (probe : String → StorageData)
    (remotes : List String) (s : JobState)
    (h : s.backgroundJobRunning = true) :
    StorageRoute.POST probe remotes s = ({ s with backgroundJobTimer := false }, true)
  ∧ runStorageCheckJob probe remotes { s with backgroundJobTimer := false }
      = ({ s with backgroundJobTimer := false }, false)
  ∧ concStep
      { backgroundJobRunning := true, inFlight := 1, backgroundJobTimer := false }
      .cycleEnd
      = { backgroundJobRunning := false, inFlight := 0, backgroundJobTimer := true } := by
  refine ⟨?_, ?_, rfl⟩
  · simp [StorageRoute.POST, runStorageCheckJob, h]
  · simp [runStorageCheckJob, h]

/-- Witness for C10: with the flag set and a timer pending, the manual
refresh returns success with the timer nulled and the running cycle
untouched. -/
theorem manual_refresh_during_cycle_witness :
    StorageRoute.POST (fun _ => { lastUpdated := 1 }) ["a"]
      { storageCache := [], backgroundJobRunning := true, backgroundJobTimer := true }
      = ({ storageCache := [], backgroundJobRunning := true,
           backgroundJobTimer := false }, true)
  ∧ runStorageCheckJob (fun _ => { lastUpdated := 1 }) ["a"]
      { storageCache := [], backgroundJobRunning := true, backgroundJobTimer := false }
      = ({ storageCache := [], backgroundJobRunning := true,
           backgroundJobTimer := false }, false)
  ∧ concStep
      { backgroundJobRunning := true, inFlight := 1, backgroundJobTimer := false }
      .cycleEnd
      = { backgroundJobRunning := false, inFlight := 0, backgroundJobTimer := true } :=
  manual_refresh_during_cycle (fun _ => { lastUpdated := 1 }) ["a"]
    { storageCache := [], backgroundJobRunning := true, backgroundJobTimer := true } rfl

end RRList
